import Mathlib

/- Verification development for the social-media post generator endpoint
   (src/app.py, Flask route POST /generate-post).

   Strings are modelled as lists of characters (`Str`).  The handler is
   modelled as a pure function over an oracle environment (`Env`) that
   describes the external provider: the outcome of each staging attempt
   (temporary file + File API upload), the temporary path handed out by
   each mkstemp call, and the result of the single generate_content call
   (either generated text or a raised exception message).  Side effects
   (temporary-file creation/removal, upload calls, the generate call) are
   recorded as an event trace, and the set of temporary files present in
   scratch storage is threaded through explicitly. -/

abbrev Str := List Char

/-- Whitespace characters recognised by Python's str.strip() and the regex
class backslash-s, restricted to the ASCII range that is relevant here. -/
def isSpace (c : Char) : Bool :=
  c == ' ' || c == '\t' || c == '\n' || c == '\r' || c == '\x0b' || c == '\x0c'

/-- Model of Python str.strip(): remove leading and trailing whitespace. -/
def pyStrip (s : Str) : Str :=
  ((s.dropWhile isSpace).reverse.dropWhile isSpace).reverse

/-- hasPre pat s: the list s starts with pat. -/
def hasPre : Str → Str → Bool
  | [], _ => true
  | _ :: _, [] => false
  | a :: as, b :: bs => if a = b then hasPre as bs else false

/-- Left-to-right scan for the first position at or after index i at which
pat occurs; i is an accumulator so that the scan is tail-recursive. -/
def findSubFrom (pat : Str) (i : Nat) : Str → Option Nat
  | [] => if hasPre pat [] then some i else none
  | c :: rest => if hasPre pat (c :: rest) then some i else findSubFrom pat (i + 1) rest

/-- Index of the first occurrence of pat inside s, as found by a
left-to-right scan (the position at which Python's re.search anchors a
match whose pattern begins with the literal pat). -/
def findSub (pat : Str) (s : Str) : Option Nat := findSubFrom pat 0 s

theorem findSubFrom_shift (pat : Str) :
    ∀ (s : Str) (i : Nat), findSubFrom pat i s = (findSubFrom pat 0 s).map (· + i) := by
  intro s
  induction s with
  | nil =>
    intro i
    by_cases hh : hasPre pat [] = true
    · simp [findSubFrom, hh]
    · simp [findSubFrom, hh]
  | cons c rest ih =>
    intro i
    by_cases hh : hasPre pat (c :: rest) = true
    · simp [findSubFrom, hh]
    · rw [findSubFrom, if_neg (by simp [hh]), findSubFrom, if_neg (by simp [hh])]
      rw [ih (i + 1), ih 1]
      cases findSubFrom pat 0 rest with
      | none => rfl
      | some k => simp [Option.map]; omega

theorem findSub_nil (pat : Str) :
    findSub pat [] = if hasPre pat [] then some 0 else none := rfl

theorem findSub_cons (pat : Str) (c : Char) (rest : Str) :
    findSub pat (c :: rest) =
      if hasPre pat (c :: rest) then some 0 else (findSub pat rest).map (· + 1) := by
  by_cases hh : hasPre pat (c :: rest) = true
  · simp [findSub, findSubFrom, hh]
  · rw [findSub, findSubFrom, if_neg (by simp [hh]), if_neg (by simp [hh])]
    exact findSubFrom_shift pat rest 1

/-- Python's `pat in s` substring test. -/
def containsSub (pat s : Str) : Bool := (findSub pat s).isSome

/-- Section marker for the Facebook section (app.py line 176). -/
def fbMarker : Str := "### Facebook Post ###".toList

/-- Section marker for the X (Twitter) section (app.py line 177). -/
def xMarker : Str := "### X (Twitter) Post ###".toList

/-- Section marker for the Instagram section (app.py line 178). -/
def igMarker : Str := "### Instagram Post ###".toList

/-- Model of `re.search(r'MARKER\s*([\s\S]*?)(?=\s*STOP|$)', s)` followed by
`.group(1).strip()`, with the `if match else ""` default, as in app.py lines
176-181.  The regex always matches at the first occurrence of MARKER (the
lazy capture extended to the end of the text satisfies the `$` alternative
of the lookahead), the greedy `\s*` after MARKER only skips whitespace that
`.strip()` removes anyway, the lazy capture stops at the first position from
which `\s*STOP` matches, i.e. at the start of the whitespace run preceding
the first occurrence of STOP after MARKER (whitespace again removed by
`.strip()`), and the `$` alternative differs from the true end of the text
only by a trailing newline, also removed by `.strip()`.  So after stripping,
the captured section is the text from the end of the first occurrence of
MARKER up to the first following occurrence of STOP, or to the end of the
text when STOP does not occur there. -/
def sectionFrom (marker stop s : Str) : Str :=
  match findSub marker s with
  | none => []
  | some i =>
    match findSub stop (s.drop (i + marker.length)) with
    | none => pyStrip (s.drop (i + marker.length))
    | some j => pyStrip ((s.drop (i + marker.length)).take j)

/-- facebook_content (app.py lines 176, 180). -/
def facebookContent (s : Str) : Str := sectionFrom fbMarker xMarker s

/-- x_content (app.py lines 177, 181). -/
def xContent (s : Str) : Str := sectionFrom xMarker igMarker s

/-- instagram_content (app.py lines 178, 182): the pattern
`### Instagram Post ###\s*([\s\S]*?)$` captures everything after the first
occurrence of the marker, up to the end of the text ( the `$` and the
leading `\s*` only differ from that by whitespace that `.strip()` removes). -/
def instagramContent (s : Str) : Str :=
  match findSub igMarker s with
  | none => []
  | some i => pyStrip (s.drop (i + igMarker.length))

/-- Fallback warning prefixed to the raw response when no section could be
parsed (app.py line 187). -/
def warnPre : Str :=
  ("Warning: Could not parse response into sections. The AI generated content might not be in the expected format.\n\nRaw AI Response:\n").toList

/-- Sentinel used for the x and instagram fields in the parse-fallback case
(app.py lines 188-189). -/
def naMsg : Str := "N/A (Parsing failed)".toList

/-- HTTP-level outcome of the handler: a 200 JSON success body with the
three platform fields, a 400 client error, or a 500 server error. -/
inductive Resp where
  | ok (facebook x instagram : Str)
  | badRequest (error : Str)
  | serverError (error : Str)
deriving DecidableEq, Repr

/-- Model of app.py lines 180-198: compute the three section contents from
the generated text, fall back to the raw (stripped) text in the facebook
field when all three are empty but the text is non-blank, return a 500
error when the text is blank, and otherwise return the three sections. -/
def parseSections (generatedText : Str) : Resp :=
  let fb := facebookContent generatedText
  let xc := xContent generatedText
  let ig := instagramContent generatedText
  if fb.isEmpty && xc.isEmpty && ig.isEmpty then
    if !generatedText.isEmpty && !(pyStrip generatedText).isEmpty then
      Resp.ok (warnPre ++ pyStrip generatedText) naMsg naMsg
    else
      Resp.serverError ("Failed to generate content from the AI model. The response was empty.".toList)
  else
    Resp.ok fb xc ig

/-- Error classification of app.py lines 203-213: substring-match the text
of the raised exception and map it to a user-facing message. -/
def classifyError (msg : Str) : Str :=
  if containsSub ("API key".toList) msg || containsSub ("authentication".toList) msg then
    ("API authentication failed. Check your GEMINI_API_KEY.").toList
  else if containsSub ("quota".toList) msg then
    ("API quota exceeded. Please try again later.").toList
  else if containsSub ("rate limit".toList) msg then
    ("API rate limit exceeded. Please try again later.").toList
  else if containsSub ("invalid_argument".toList) msg || containsSub ("Bad Request".toList) msg then
    ("Invalid input sent to AI model: ").toList ++ msg
  else
    ("An unexpected error occurred: ").toList ++ msg

/-- One uploaded file in the request (werkzeug FileStorage): its filename
and declared MIME type.  The raw bytes play no role in the control flow
modelled here. -/
structure FilePart where
  filename : Str
  mimetype : Str
deriving DecidableEq, Repr

/-- The inbound request: the four form fields (absent fields modelled as
`none`, `request.form.get` defaults applied in the handler) and the list of
file parts under the field name `images`. -/
structure GenRequest where
  postType : Option Str
  inputLanguage : Option Str
  outputLanguage : Option Str
  userContext : Option Str
  images : List FilePart
deriving DecidableEq, Repr

/-- Result of a successful File API upload (app.py line 90): the URI and
MIME type used to build the outbound part. -/
structure RemoteFile where
  uri : Str
  mime_type : Str
deriving DecidableEq, Repr

/-- Outcome of one staging attempt for a valid image (app.py lines 70-103):
tempfile.mkstemp itself raises (no temporary file is created), the
write/upload step raises after the temporary file was created and recorded,
or the upload succeeds and returns a RemoteFile. -/
inductive StageOutcome where
  | mkstempFail
  | uploadFail
  | uploaded (f : RemoteFile)
deriving DecidableEq, Repr

/-- Oracle environment for the external world: whether the Gemini client
was initialised, the outcome and temporary path of the k-th staging
attempt, and the outcome of the single generate_content call (`Except.error`
models a raised exception with the given message, `Except.ok` the returned
response text). -/
structure Env where
  clientReady : Bool
  stage : Nat → StageOutcome
  tempName : Nat → Str
  generated : Except Str Str

/-- One part of the outbound generate_content request (google.genai types):
the composed text part or a file-URI part. -/
inductive GPart where
  | text (s : Str)
  | fileUri (uri mime : Str)
deriving DecidableEq, Repr

/-- Observable side effects of the handler. -/
inductive Event where
  | tempCreate (path : Str)
  | uploadCall (k : Nat)
  | generateCall (parts : List GPart)
  | tempRemove (path : Str)
deriving DecidableEq, Repr

/-- Filter of app.py line 69: keep only parts with a non-empty filename and
a declared MIME type that begins with "image/". -/
def validImage (f : FilePart) : Bool :=
  !f.filename.isEmpty && !f.mimetype.isEmpty && hasPre ("image/".toList) f.mimetype

/-- State carried through the staging loop of app.py lines 62-106:
the number of staging attempts made so far (indexing the oracle), the
uploaded files paired with their attempt index (uploaded_gemini_files), the
recorded temporary paths (temp_file_paths), the temporary files currently
present in scratch storage, and the emitted events. -/
structure StageState where
  k : Nat
  uploads : List (Nat × RemoteFile)
  temps : List Str
  storage : List Str
  events : List Event
deriving Repr

/-- Body of the staging loop (app.py lines 64-106) for one file: skip it
unless it is a valid image; otherwise attempt to stage and upload it, with
the per-file try/except absorbing failures (the failing file is simply not
added to the uploaded list, while a temporary file that was already created
stays recorded for cleanup). -/
def stageOne (env : Env) (st : StageState) (f : FilePart) : StageState :=
  if validImage f then
    match env.stage st.k with
    | StageOutcome.mkstempFail => { st with k := st.k + 1 }
    | StageOutcome.uploadFail =>
        { st with
          k := st.k + 1,
          temps := st.temps ++ [env.tempName st.k],
          storage := st.storage ++ [env.tempName st.k],
          events := st.events ++ [Event.tempCreate (env.tempName st.k)] }
    | StageOutcome.uploaded g =>
        { st with
          k := st.k + 1,
          uploads := st.uploads ++ [(st.k, g)],
          temps := st.temps ++ [env.tempName st.k],
          storage := st.storage ++ [env.tempName st.k],
          events := st.events ++ [Event.tempCreate (env.tempName st.k), Event.uploadCall st.k] }
  else st

/-- The whole staging loop, starting from the empty state. -/
def stageAll (env : Env) (files : List FilePart) : StageState :=
  files.foldl (stageOne env) ⟨0, [], [], [], []⟩

/-- Decimal rendering of a natural number, for the image-count note. -/
def natStr (n : Nat) : Str := (Nat.repr n).toList

/-- The composed prompt (text_part_content, app.py lines 114-143).  The
first two pieces are Python f-strings and interpolate their fields; the
final template (lines 128-143) is a plain string literal, so its
"\x7boutput_language\x7d" at line 142 is emitted literally, brace characters
included, rather than being replaced by the output language. -/
def textPartContent (postType inputLanguage outputLanguage userContext : Str)
    (nUploaded : Nat) : Str :=
  ("Generate social media content based on the following requirements:\n- Post Type: ").toList
  ++ postType
  ++ ("\n- Input Context Language: ").toList
  ++ inputLanguage
  ++ ("\n- Output Language: ").toList
  ++ outputLanguage
  ++ ("\n- User Context/Details: \"").toList
  ++ pyStrip userContext
  ++ ("\"\n").toList
  ++ (if nUploaded > 0 then
        ("\n- Note: ").toList ++ natStr nUploaded
        ++ (" image(s) have been provided via URIs. Analyze them along with the text context to generate the post content.\nDo NOT explicitly describe the images in the text unless specifically requested in the user context. Focus on generating relevant post text based on the combined visual and text input.").toList
      else
        ("\nNo images were provided. Generate content solely based on the user context.").toList)
  ++ ("\nPlease provide content specifically tailored for each platform below. Aim for the general conventions of each platform regarding length and style. Use clear headings for each section exactly as follows, followed by the generated text.\nAlso follow 5W1H approach which is what, who, when, where, why and how? in the post by analyzing the given information.\nDont mention 5W1H approach which is what, who, when, where, why and how? in the post directly.  :\n\n### Facebook Post ###\n[Generate Facebook content here. It can be a moderate length, suitable for a typical feed post. Include relevant hashtags.]\n\n### X (Twitter) Post ###\n[Generate X content here. Be concise, strictly adhere to a character limit appropriate for X (~280 chars including hashtags is a good target). Include relevant hashtags.]\n\n### Instagram Post ###\n[Generate Instagram caption here. It should be engaging and can use line breaks for readability, but aim for a concise to moderate length compared to Facebook. Include relevant hashtags.]\n\nEnsure the language of the generated content is strictly in \x7boutput_language\x7d.\n").toList

/-- The URI parts appended after the text part (app.py lines 148-157; the
per-part try/except never fires in this model, GPart construction being
pure). -/
def uriParts (ups : List (Nat × RemoteFile)) : List GPart :=
  ups.map (fun kg => GPart.fileUri kg.2.uri kg.2.mime_type)

/-- Result of the try-block of the handler, before the finally-cleanup. -/
structure TryOut where
  resp : Resp
  events : List Event
  temps : List Str
  storage : List Str
deriving Repr

/-- Main flow of the handler after the mandatory-context validation passed
(app.py lines 62-198): run the staging loop, re-check that context or
uploads are present (line 109), compose the prompt and the parts, and make
the single generate_content call, classifying a raised exception (lines
200-215) or parsing the returned text (lines 176-198). -/
def mainFlow (env : Env) (req : GenRequest) (uc : Str) : TryOut :=
  let st := stageAll env req.images
  if (pyStrip uc).isEmpty && st.uploads.isEmpty then
    ⟨Resp.badRequest ("Please provide text details or upload valid images.".toList),
      st.events, st.temps, st.storage⟩
  else
    let prompt := textPartContent (req.postType.getD ("General".toList))
      (req.inputLanguage.getD ("English".toList))
      (req.outputLanguage.getD ("English".toList)) uc st.uploads.length
    let parts := GPart.text prompt :: uriParts st.uploads
    if parts.isEmpty then
      ⟨Resp.serverError ("Could not prepare content for the AI model.".toList),
        st.events, st.temps, st.storage⟩
    else
      match env.generated with
      | Except.error e =>
          ⟨Resp.serverError (classifyError e),
            st.events ++ [Event.generateCall parts], st.temps, st.storage⟩
      | Except.ok t =>
          ⟨parseSections t,
            st.events ++ [Event.generateCall parts], st.temps, st.storage⟩

/-- The try-block of the handler (app.py lines 45-215): read the form
fields, validate the mandatory user context (lines 56-57, where a missing
or empty or blank-after-strip context is rejected with 400), then run the
main flow. -/
def tryBody (env : Env) (req : GenRequest) : TryOut :=
  match req.userContext with
  | none => ⟨Resp.badRequest ("User context is required".toList), [], [], []⟩
  | some uc =>
    if uc.isEmpty || (pyStrip uc).isEmpty then
      ⟨Resp.badRequest ("User context is required".toList), [], [], []⟩
    else
      mainFlow env req uc

/-- Membership of a path in scratch storage (os.path.exists). -/
def memPath (p : Str) : List Str → Bool
  | [] => false
  | q :: rest => if q = p then true else memPath p rest

/-- Removal of a path from scratch storage (os.remove). -/
def dropPath (p : Str) : List Str → List Str
  | [] => []
  | q :: rest => if q = p then dropPath p rest else q :: dropPath p rest

/-- The finally-block (app.py lines 217-226): walk the recorded temporary
paths and delete each one that is still present, recording the removal. -/
def runCleanup : List Str → List Str → List Event → List Str × List Event
  | [], sto, evs => (sto, evs)
  | p :: rest, sto, evs =>
    if memPath p sto then
      runCleanup rest (dropPath p sto) (evs ++ [Event.tempRemove p])
    else
      runCleanup rest sto evs

/-- Full observable outcome of one handler invocation. -/
structure RunResult where
  resp : Resp
  events : List Event
  tempRecorded : List Str
  storage : List Str
deriving Repr

/-- The whole handler generate_post (app.py lines 34-226): fail with 500
when the Gemini client was not initialised (lines 35-37, outside the
try/finally), otherwise run the try-block and then the finally-cleanup. -/
def runHandler (env : Env) (req : GenRequest) : RunResult :=
  if env.clientReady then
    let t := tryBody env req
    let c := runCleanup t.temps t.storage t.events
    ⟨t.resp, c.2, t.temps, c.1⟩
  else
    ⟨Resp.serverError ("Server is not configured with the API key or failed to initialize API client.".toList),
      [], [], []⟩

/- Basic lemmas about hasPre, findSub and pyStrip. -/

theorem hasPre_append_self (pat v : Str) : hasPre pat (pat ++ v) = true := by
  induction pat with
  | nil => rfl
  | cons a as ih => simp [hasPre, ih]

theorem findSub_some_hasPre (pat : Str) :
    ∀ (s : Str) (j : Nat), findSub pat s = some j → hasPre pat (s.drop j) = true := by
  intro s
  induction s with
  | nil =>
    intro j h
    by_cases hh : hasPre pat [] = true
    · simp [findSub_nil, findSub_cons, hh] at h
      subst h
      simpa using hh
    · simp [findSub_nil, findSub_cons, hh] at h
  | cons c rest ih =>
    intro j h
    by_cases hh : hasPre pat (c :: rest) = true
    · simp [findSub_nil, findSub_cons, hh] at h
      subst h
      simpa using hh
    · simp [findSub_nil, findSub_cons, hh] at h
      obtain ⟨j', hj', rfl⟩ := h
      simpa using ih j' hj'

theorem findSub_some_min (pat : Str) :
    ∀ (s : Str) (j : Nat), findSub pat s = some j →
      ∀ m, m < j → hasPre pat (s.drop m) = false := by
  intro s
  induction s with
  | nil =>
    intro j h m hm
    by_cases hh : hasPre pat [] = true
    · simp [findSub_nil, findSub_cons, hh] at h
      omega
    · simp [findSub_nil, findSub_cons, hh] at h
  | cons c rest ih =>
    intro j h m hm
    by_cases hh : hasPre pat (c :: rest) = true
    · simp [findSub_nil, findSub_cons, hh] at h
      omega
    · simp [findSub_nil, findSub_cons, hh] at h
      obtain ⟨j', hj', rfl⟩ := h
      cases m with
      | zero => simpa using eq_false_of_ne_true hh
      | succ m' => simpa using ih j' hj' m' (by omega)

theorem findSub_of_hasPre_min (pat : Str) :
    ∀ (s : Str) (j : Nat), hasPre pat (s.drop j) = true →
      (∀ m, m < j → hasPre pat (s.drop m) = false) → findSub pat s = some j := by
  intro s
  induction s with
  | nil =>
    intro j h hmin
    cases j with
    | zero => simp_all [findSub_nil]
    | succ j' =>
      have h0 := hmin 0 (by omega)
      simp at h0
      simp at h
      rw [h0] at h
      cases h
  | cons c rest ih =>
    intro j h hmin
    cases j with
    | zero =>
      simp at h
      simp [findSub_nil, findSub_cons, h]
    | succ j' =>
      have h0 := hmin 0 (by omega)
      simp at h0
      have hrec : findSub pat rest = some j' := by
        apply ih
        · simpa using h
        · intro m hm
          simpa using hmin (m + 1) (by omega)
      simp [findSub_nil, findSub_cons, h0, hrec]

theorem findSub_drop_shift (pat s : Str) (j d : Nat)
    (h : findSub pat s = some j) (hd : d ≤ j) :
    findSub pat (s.drop d) = some (j - d) := by
  apply findSub_of_hasPre_min
  · rw [List.drop_drop]
    have hjd : d + (j - d) = j := by omega
    rw [hjd]
    exact findSub_some_hasPre pat s j h
  · intro m hm
    rw [List.drop_drop]
    exact findSub_some_min pat s j h (d + m) (by omega)

theorem dropWhile_nil_all (p : Char → Bool) :
    ∀ l : Str, l.dropWhile p = [] → ∀ x ∈ l, p x = true := by
  intro l
  induction l with
  | nil => intro _ x hx; cases hx
  | cons c rest ih =>
    intro h x hx
    by_cases hc : p c = true
    · rw [List.dropWhile_cons, if_pos hc] at h
      cases hx with
      | head => exact hc
      | tail _ hx' => exact ih h x hx'
    · rw [List.dropWhile_cons, if_neg hc] at h
      cases h

theorem takeWhile_all (p : Char → Bool) :
    ∀ (l : Str) (x : Char), x ∈ l.takeWhile p → p x = true := by
  intro l
  induction l with
  | nil => intro x hx; cases hx
  | cons c rest ih =>
    intro x hx
    by_cases hc : p c = true
    · rw [List.takeWhile_cons, if_pos hc] at hx
      cases hx with
      | head => exact hc
      | tail _ h => exact ih x h
    · rw [List.takeWhile_cons, if_neg hc] at hx
      cases hx

theorem pyStrip_nil_allspace (t : Str) (h : pyStrip t = []) :
    ∀ x ∈ t, isSpace x = true := by
  have h1 : (t.dropWhile isSpace).reverse.dropWhile isSpace = [] := by
    have := congrArg List.reverse h
    simpa [pyStrip] using this
  have h2 : ∀ x ∈ (t.dropWhile isSpace).reverse, isSpace x = true :=
    dropWhile_nil_all isSpace _ h1
  have h3 : ∀ x ∈ t.dropWhile isSpace, isSpace x = true := by
    intro x hx
    exact h2 x (List.mem_reverse.mpr hx)
  intro x hx
  rw [← List.takeWhile_append_dropWhile (p := isSpace) (l := t)] at hx
  rcases List.mem_append.mp hx with h4 | h4
  · exact takeWhile_all isSpace t x h4
  · exact h3 x h4

theorem findSub_cons_none_of_allspace (m : Char) (ms : Str) (hm : isSpace m = false) :
    ∀ t : Str, (∀ x ∈ t, isSpace x = true) → findSub (m :: ms) t = none := by
  intro t
  induction t with
  | nil => intro _; rfl
  | cons c rest ih =>
    intro hall
    have hc : isSpace c = true := hall c (by simp)
    have hpre : hasPre (m :: ms) (c :: rest) = false := by
      simp [hasPre]
      intro hmc
      rw [hmc] at hm
      rw [hc] at hm
      cases hm
    simp [findSub_nil, findSub_cons, hpre]
    exact ih (fun x hx => hall x (by simp [hx]))

theorem findSub_fbMarker_blank (t : Str) (h : pyStrip t = []) :
    findSub fbMarker t = none := by
  have hdec : fbMarker = '#' :: fbMarker.tail := by decide
  rw [hdec]
  exact findSub_cons_none_of_allspace '#' fbMarker.tail (by decide) t (pyStrip_nil_allspace t h)

theorem findSub_xMarker_blank (t : Str) (h : pyStrip t = []) :
    findSub xMarker t = none := by
  have hdec : xMarker = '#' :: xMarker.tail := by decide
  rw [hdec]
  exact findSub_cons_none_of_allspace '#' xMarker.tail (by decide) t (pyStrip_nil_allspace t h)

theorem findSub_igMarker_blank (t : Str) (h : pyStrip t = []) :
    findSub igMarker t = none := by
  have hdec : igMarker = '#' :: igMarker.tail := by decide
  rw [hdec]
  exact findSub_cons_none_of_allspace '#' igMarker.tail (by decide) t (pyStrip_nil_allspace t h)

theorem parseSections_blank (t : Str) (h : pyStrip t = []) :
    parseSections t =
      Resp.serverError ("Failed to generate content from the AI model. The response was empty.".toList) := by
  have hfb : facebookContent t = [] := by
    simp [facebookContent, sectionFrom, findSub_fbMarker_blank t h]
  have hx : xContent t = [] := by
    simp [xContent, sectionFrom, findSub_xMarker_blank t h]
  have hig : instagramContent t = [] := by
    simp [instagramContent, findSub_igMarker_blank t h]
  simp [parseSections, hfb, hx, hig, h]

theorem parseSections_ne_badRequest (t : Str) (msg : Str) :
    parseSections t ≠ Resp.badRequest msg := by
  intro h
  simp only [parseSections] at h
  split at h
  · split at h
    · cases h
    · cases h
  · cases h

/- Lemmas about the staging loop and about cleanup. -/

theorem stageOne_storage_temps (env : Env) (st : StageState) (f : FilePart)
    (h : st.storage = st.temps) :
    (stageOne env st f).storage = (stageOne env st f).temps := by
  unfold stageOne
  split
  · cases henv : env.stage st.k <;> simp [h]
  · exact h

theorem foldl_stage_storage_temps (env : Env) :
    ∀ (files : List FilePart) (st : StageState), st.storage = st.temps →
      (files.foldl (stageOne env) st).storage = (files.foldl (stageOne env) st).temps := by
  intro files
  induction files with
  | nil => intro st h; simpa using h
  | cons f rest ih =>
    intro st h
    exact ih (stageOne env st f) (stageOne_storage_temps env st f h)

theorem stageAll_storage_temps (env : Env) (files : List FilePart) :
    (stageAll env files).storage = (stageAll env files).temps :=
  foldl_stage_storage_temps env files ⟨0, [], [], [], []⟩ rfl

theorem memPath_dropPath (p q : Str) :
    ∀ sto : List Str, memPath q (dropPath p sto) = true → memPath q sto = true ∧ q ≠ p := by
  intro sto
  induction sto with
  | nil => intro h; cases h
  | cons a rest ih =>
    intro h
    by_cases hap : a = p
    · rw [dropPath, if_pos hap] at h
      obtain ⟨h1, h2⟩ := ih h
      constructor
      · rw [memPath]
        split <;> simp [h1]
      · exact h2
    · rw [dropPath, if_neg hap] at h
      rw [memPath] at h
      by_cases haq : a = q
      · constructor
        · rw [memPath, if_pos haq]
        · intro hqp
          exact hap (haq.trans hqp)
      · rw [if_neg haq] at h
        obtain ⟨h1, h2⟩ := ih h
        constructor
        · rw [memPath]
          split <;> simp [h1]
        · exact h2

theorem cleanup_storage_nil :
    ∀ (temps sto : List Str) (evs : List Event),
      (∀ q, memPath q sto = true → memPath q temps = true) →
      (runCleanup temps sto evs).1 = [] := by
  intro temps
  induction temps with
  | nil =>
    intro sto evs h
    cases sto with
    | nil => rfl
    | cons a rest =>
      have := h a (by rw [memPath]; simp)
      cases this
  | cons p rest ih =>
    intro sto evs h
    rw [runCleanup]
    split
    · apply ih
      intro q hq
      obtain ⟨h1, h2⟩ := memPath_dropPath p q sto hq
      have h3 := h q h1
      rw [memPath, if_neg (fun hpq : p = q => h2 hpq.symm)] at h3
      exact h3
    · apply ih
      intro q hq
      have h3 := h q hq
      rw [memPath] at h3
      by_cases hpq : p = q
      · rw [← hpq] at hq
        rename_i hmem
        rw [hq] at hmem
        cases hmem rfl
      · rw [if_neg hpq] at h3
        exact h3

theorem cleanup_events_mono :
    ∀ (temps sto : List Str) (evs : List Event) (e : Event),
      e ∈ evs → e ∈ (runCleanup temps sto evs).2 := by
  intro temps
  induction temps with
  | nil => intro sto evs e he; exact he
  | cons p rest ih =>
    intro sto evs e he
    rw [runCleanup]
    split
    · exact ih _ _ e (List.mem_append.mpr (Or.inl he))
    · exact ih _ _ e he

/- Routing lemmas for the handler. -/

theorem tryBody_of_blank (env : Env) (req : GenRequest)
    (h : ∀ uc, req.userContext = some uc → pyStrip uc = []) :
    tryBody env req = ⟨Resp.badRequest ("User context is required".toList), [], [], []⟩ := by
  unfold tryBody
  cases hu : req.userContext with
  | none => rfl
  | some uc =>
    have hs := h uc hu
    simp [hs]

theorem tryBody_of_valid (env : Env) (req : GenRequest) (uc : Str)
    (h : req.userContext = some uc) (hne : pyStrip uc ≠ []) :
    tryBody env req = mainFlow env req uc := by
  unfold tryBody
  rw [h]
  have h1 : uc ≠ [] := fun hnil => hne (by rw [hnil]; rfl)
  have h2 : uc.isEmpty = false := by
    cases uc with
    | nil => exact absurd rfl h1
    | cons a l => rfl
  have h3 : (pyStrip uc).isEmpty = false := by
    cases hps : pyStrip uc with
    | nil => exact absurd hps hne
    | cons a l => rfl
  simp [h2, h3]

theorem runHandler_ready (env : Env) (req : GenRequest) (hc : env.clientReady = true) :
    runHandler env req =
      ⟨(tryBody env req).resp,
        (runCleanup (tryBody env req).temps (tryBody env req).storage (tryBody env req).events).2,
        (tryBody env req).temps,
        (runCleanup (tryBody env req).temps (tryBody env req).storage (tryBody env req).events).1⟩ := by
  simp [runHandler, hc]

theorem mainFlow_storage_temps (env : Env) (req : GenRequest) (uc : Str) :
    (mainFlow env req uc).storage = (mainFlow env req uc).temps := by
  simp only [mainFlow]
  split
  · exact stageAll_storage_temps env req.images
  · split
    · exact stageAll_storage_temps env req.images
    · split
      · exact stageAll_storage_temps env req.images
      · exact stageAll_storage_temps env req.images

theorem tryBody_storage_temps (env : Env) (req : GenRequest) :
    (tryBody env req).storage = (tryBody env req).temps := by
  cases hu : req.userContext with
  | none =>
    rw [tryBody_of_blank env req (fun uc' h => by rw [hu] at h; cases h)]
  | some uc =>
    by_cases hne : pyStrip uc = []
    · rw [tryBody_of_blank env req (fun uc' h => by rw [hu] at h; cases h; exact hne)]
    · rw [tryBody_of_valid env req uc hu hne]
      exact mainFlow_storage_temps env req uc

theorem mainFlow_resp_err (env : Env) (req : GenRequest) (uc : Str)
    (h : (pyStrip uc).isEmpty = false) (e : Str) (hg : env.generated = Except.error e) :
    (mainFlow env req uc).resp = Resp.serverError (classifyError e) := by
  simp only [mainFlow]
  split
  · rename_i hcond
    rw [h] at hcond
    simp at hcond
  · split
    · rename_i hp
      simp at hp
    · simp [hg]

theorem mainFlow_resp_ok (env : Env) (req : GenRequest) (uc : Str)
    (h : (pyStrip uc).isEmpty = false) (t : Str) (hg : env.generated = Except.ok t) :
    (mainFlow env req uc).resp = parseSections t := by
  simp only [mainFlow]
  split
  · rename_i hcond
    rw [h] at hcond
    simp at hcond
  · split
    · rename_i hp
      simp at hp
    · simp [hg]

theorem mainFlow_genCall (env : Env) (req : GenRequest) (uc : Str)
    (h : (pyStrip uc).isEmpty = false) :
    ∃ ps, Event.generateCall ps ∈ (mainFlow env req uc).events := by
  simp only [mainFlow]
  split
  · rename_i hcond
    rw [h] at hcond
    simp at hcond
  · split
    · rename_i hp
      simp at hp
    · split
      · exact ⟨_, List.mem_append_right _ (List.mem_singleton_self _)⟩
      · exact ⟨_, List.mem_append_right _ (List.mem_singleton_self _)⟩

theorem mainFlow_uploads_events (env : Env) (req : GenRequest) (uc : Str) :
    (mainFlow env req uc).events = (stageAll env req.images).events ∨
      ∃ ps, (mainFlow env req uc).events = (stageAll env req.images).events ++ [Event.generateCall ps] := by
  simp only [mainFlow]
  split
  · exact Or.inl rfl
  · split
    · exact Or.inl rfl
    · split
      · exact Or.inr ⟨_, rfl⟩
      · exact Or.inr ⟨_, rfl⟩

/-- C5: for every environment and every request — hence on every exit path:
success, validation failure, per-attachment failure, provider failure, or a
classified unexpected exception — the scratch storage left behind by the
handler is empty: every temporary file created during the request has been
deleted by the finally-block before the handler returns.  On paths that
created no scratch files (for instance the early validation failure) the
recorded temp_file_paths list is empty and the cleanup loop is a no-op. -/
theorem c5_no_temp_file_remains (env : Env) (req : GenRequest) :
    (runHandler env req).storage = [] := by
  by_cases hc : env.clientReady = true
  · rw [runHandler_ready env req hc]
    apply cleanup_storage_nil
    intro q hq
    rw [tryBody_storage_temps env req] at hq
    exact hq
  · simp [runHandler, hc]

/-- C2: for every configured environment (the client was initialised) and
every request whose userContext field is missing, empty, or blank after
trimming, the handler responds 400 with error message "User context is
required", regardless of the attachments carried by the request, and the
outcome contains no events at all: no upload call, no generate call, and no
temporary file was even created. -/
theorem c2_blank_context_rejected (env : Env) (req : GenRequest)
    (hc : env.clientReady = true)
    (h : ∀ uc, req.userContext = some uc → pyStrip uc = []) :
    runHandler env req =
      ⟨Resp.badRequest ("User context is required".toList), [], [], []⟩ := by
  rw [runHandler_ready env req hc, tryBody_of_blank env req h]
  rfl

def envBlankW : Env := ⟨true, fun _ => StageOutcome.mkstempFail, fun _ => [], Except.ok []⟩

def reqBlankW : GenRequest :=
  ⟨none, none, none, some ("   ".toList), [⟨"a.png".toList, "image/png".toList⟩]⟩

/-- Witness for C2: a concrete request with whitespace-only user context and
one attached image is rejected with the 400 message and an empty trace. -/
theorem c2_blank_context_rejected_witness :
    runHandler envBlankW reqBlankW =
      ⟨Resp.badRequest ("User context is required".toList), [], [], []⟩ :=
  c2_blank_context_rejected envBlankW reqBlankW rfl (fun uc h => by
    have h2 : some ("   ".toList) = some uc := h
    have h3 : uc = "   ".toList := (Option.some.inj h2).symm
    rw [h3]
    decide)

def secondaryRejectMsg : Str := "Please provide text details or upload valid images.".toList

/-- Tester for the secondary 400 response of app.py line 111. -/
def isSecondaryReject : Resp → Bool
  | Resp.badRequest e => decide (e = secondaryRejectMsg)
  | _ => false

theorem isSecondaryReject_parseSections (t : Str) :
    isSecondaryReject (parseSections t) = false := by
  simp only [parseSections]
  split
  · split
    · rfl
    · rfl
  · rfl

theorem mainFlow_not_secondary (env : Env) (req : GenRequest) (uc : Str)
    (h : (pyStrip uc).isEmpty = false) :
    isSecondaryReject (mainFlow env req uc).resp = false := by
  simp only [mainFlow]
  split
  · rename_i hcond
    rw [h] at hcond
    simp at hcond
  · split
    · rename_i hp
      simp at hp
    · split
      · rfl
      · exact isSecondaryReject_parseSections _

/-- C10: the secondary 400 branch of app.py lines 109-111 (message "Please
provide text details or upload valid images.") is unreachable: for every
environment and every request the handler's response is never that 400,
because execution only reaches the check after the first validation has
established that the trimmed userContext is non-empty. -/
theorem c10_secondary_reject_unreachable (env : Env) (req : GenRequest) :
    isSecondaryReject (runHandler env req).resp = false := by
  by_cases hc : env.clientReady = true
  · rw [runHandler_ready env req hc]
    show isSecondaryReject (tryBody env req).resp = false
    cases hu : req.userContext with
    | none =>
      rw [tryBody_of_blank env req (fun uc' h => by rw [hu] at h; cases h)]
      decide
    | some uc =>
      by_cases hne : pyStrip uc = []
      · rw [tryBody_of_blank env req (fun uc' h => by rw [hu] at h; cases h; exact hne)]
        decide
      · rw [tryBody_of_valid env req uc hu hne]
        apply mainFlow_not_secondary
        cases hps : pyStrip uc with
        | nil => exact absurd hps hne
        | cons a l => rfl
  · simp [runHandler, hc, isSecondaryReject]

theorem isEmpty_false_of_ne_nil {l : Str} (h : l ≠ []) : l.isEmpty = false := by
  cases l with
  | nil => exact absurd rfl h
  | cons a t => rfl

/-- C4: for every configured environment and every request with a valid
(non-blank after trimming) user context, if the generate call succeeds but
the returned text is empty or blank after trimming, the handler responds
500 with the empty-response error body — in particular it never returns a
200 success body with the three platform fields for such a response. -/
theorem c4_blank_generation_500 (env : Env) (req : GenRequest) (uc t : Str)
    (hc : env.clientReady = true)
    (hu : req.userContext = some uc) (hne : pyStrip uc ≠ [])
    (hg : env.generated = Except.ok t) (ht : pyStrip t = []) :
    (runHandler env req).resp =
      Resp.serverError ("Failed to generate content from the AI model. The response was empty.".toList) := by
  rw [runHandler_ready env req hc]
  show (tryBody env req).resp = _
  rw [tryBody_of_valid env req uc hu hne,
    mainFlow_resp_ok env req uc (isEmpty_false_of_ne_nil hne) t hg]
  exact parseSections_blank t ht

def envBlankGenW : Env := ⟨true, fun _ => StageOutcome.mkstempFail, fun _ => [], Except.ok ("  \n ".toList)⟩

def reqPlainW : GenRequest := ⟨none, none, none, some ("topic".toList), []⟩

/-- Witness for C4: a concrete request whose generate call returns
whitespace-only text gets the 500 empty-response error. -/
theorem c4_blank_generation_500_witness :
    (runHandler envBlankGenW reqPlainW).resp =
      Resp.serverError ("Failed to generate content from the AI model. The response was empty.".toList) :=
  c4_blank_generation_500 envBlankGenW reqPlainW ("topic".toList) ("  \n ".toList)
    rfl rfl (by decide) rfl (by decide)

/-- C8: for every configured environment and every request with a valid
user context, when the generate call raises an exception with message e the
handler responds 500 with the message produced by classifyError, which
substring-matches e: "API key" or "authentication" map to the
authentication message, then "quota" to the quota message, then
"rate limit" to the rate-limit message, then "invalid_argument" or
"Bad Request" to the invalid-input message prefixed to e, and any unmatched
message to the generic unexpected-error message prefixed to e. -/
theorem c8_provider_error_classified (env : Env) (req : GenRequest) (uc e : Str)
    (hc : env.clientReady = true) (hu : req.userContext = some uc)
    (hne : pyStrip uc ≠ []) (hg : env.generated = Except.error e) :
    (runHandler env req).resp = Resp.serverError (classifyError e) := by
  rw [runHandler_ready env req hc]
  show (tryBody env req).resp = _
  rw [tryBody_of_valid env req uc hu hne]
  exact mainFlow_resp_err env req uc (isEmpty_false_of_ne_nil hne) e hg

def envQuotaW : Env :=
  ⟨true, fun _ => StageOutcome.mkstempFail, fun _ => [], Except.error ("quota exceeded for project".toList)⟩

/-- Witness for C8: a concrete request whose generate call raises an
exception mentioning "quota" yields the 500 quota message. -/
theorem c8_provider_error_classified_witness :
    (runHandler envQuotaW reqPlainW).resp =
      Resp.serverError ("API quota exceeded. Please try again later.".toList) := by
  rw [c8_provider_error_classified envQuotaW reqPlainW ("topic".toList)
    ("quota exceeded for project".toList) rfl rfl (by decide) rfl]
  decide

/-- C3 (amended): for every configured environment and every request with a
valid user context, when the generate call returns text t whose three
section captures are all empty but whose trimmed form is non-empty, the
handler returns a 200 result (not an error) whose facebook field is exactly
the fixed fallback-warning prefix followed by the trimmed raw response
text, and whose x and instagram fields both equal "N/A (Parsing failed)". -/
theorem c3_parse_fallback (env : Env) (req : GenRequest) (uc t : Str)
    (hc : env.clientReady = true) (hu : req.userContext = some uc)
    (hne : pyStrip uc ≠ []) (hg : env.generated = Except.ok t)
    (hfb : facebookContent t = []) (hx : xContent t = [])
    (hig : instagramContent t = []) (ht : pyStrip t ≠ []) :
    (runHandler env req).resp = Resp.ok (warnPre ++ pyStrip t) naMsg naMsg := by
  rw [runHandler_ready env req hc]
  show (tryBody env req).resp = _
  rw [tryBody_of_valid env req uc hu hne,
    mainFlow_resp_ok env req uc (isEmpty_false_of_ne_nil hne) t hg]
  have htne : t ≠ [] := fun hnil => ht (by rw [hnil]; rfl)
  simp [parseSections, hfb, hx, hig, isEmpty_false_of_ne_nil htne, isEmpty_false_of_ne_nil ht]

def envFallbackW : Env :=
  ⟨true, fun _ => StageOutcome.mkstempFail, fun _ => [], Except.ok (" hi ".toList)⟩

/-- Witness for C3 (amended): with raw response " hi " the fallback 200 is
returned, facebook being the warning prefix followed by "hi". -/
theorem c3_parse_fallback_witness :
    (runHandler envFallbackW reqPlainW).resp = Resp.ok (warnPre ++ ("hi".toList)) naMsg naMsg :=
  c3_parse_fallback envFallbackW reqPlainW ("topic".toList) (" hi ".toList)
    rfl rfl (by decide) rfl (by decide) (by decide) (by decide) (by decide)

set_option maxRecDepth 100000 in
/-- Counterexample for C3 as stated: with raw model response " hi "
(non-empty after trimming, no markers, all three captures empty) the
handler does return the fallback 200, but its facebook field is the warning
prefix followed by the TRIMMED raw text "hi", and the full raw response
text " hi " does not occur in it as a substring — the field contains the
trimmed raw text, not the full raw text. -/
theorem c3_counterexample :
    (runHandler envFallbackW reqPlainW).resp = Resp.ok (warnPre ++ ("hi".toList)) naMsg naMsg
    ∧ containsSub (" hi ".toList) (warnPre ++ ("hi".toList)) = false := by
  constructor
  · rfl
  · decide

theorem stage_fold_uploads_mem (env : Env) :
    ∀ (files : List FilePart) (st : StageState) (k : Nat) (g : RemoteFile),
      (k, g) ∈ (files.foldl (stageOne env) st).uploads →
      (k, g) ∈ st.uploads ∨ env.stage k = StageOutcome.uploaded g := by
  intro files
  induction files with
  | nil => intro st k g h; exact Or.inl h
  | cons f rest ih =>
    intro st k g h
    rcases ih (stageOne env st f) k g h with h1 | h1
    · by_cases hv : validImage f = true
      · cases hs : env.stage st.k with
        | mkstempFail =>
          simp [stageOne, hv, hs] at h1
          exact Or.inl h1
        | uploadFail =>
          simp [stageOne, hv, hs] at h1
          exact Or.inl h1
        | uploaded g' =>
          simp [stageOne, hv, hs] at h1
          rcases h1 with h1 | ⟨hk, hg⟩
          · exact Or.inl h1
          · rw [hk, hg]
            exact Or.inr hs
      · simp [stageOne, hv] at h1
        exact Or.inl h1
    · exact Or.inr h1

/-- Number of staging attempts made before the i-th attachment is reached:
the number of valid images strictly before position i (the loop only
attempts staging for valid images). -/
def attemptsBefore (files : List FilePart) (i : Nat) : Nat :=
  ((files.take i).filter (fun f => validImage f)).length

/-- C6: for every configured environment and every request with a valid
user context, if the staging/upload attempt for the i-th attachment (a
valid image, whose staging attempt index is attemptsBefore) fails — the
oracle returns anything other than a successful upload — then no entry with
that attempt index appears in the uploaded-files list produced by the
staging loop (hence no outbound part is built from that attachment, the
parts being the text part followed by one URI part per uploaded-list
entry), and the request still proceeds to the generate call. -/
theorem c6_failed_attachment_dropped (env : Env) (req : GenRequest) (uc : Str) (i : Nat)
    (hc : env.clientReady = true) (hu : req.userContext = some uc) (hne : pyStrip uc ≠ [])
    (hi : i < req.images.length)
    (hv : validImage (req.images.get ⟨i, hi⟩) = true)
    (hf : ∀ g, env.stage (attemptsBefore req.images i) ≠ StageOutcome.uploaded g) :
    (∀ g, (attemptsBefore req.images i, g) ∉ (stageAll env req.images).uploads)
    ∧ ∃ ps, Event.generateCall ps ∈ (runHandler env req).events := by
  constructor
  · intro g hmem
    rcases stage_fold_uploads_mem env req.images ⟨0, [], [], [], []⟩ _ g hmem with h1 | h1
    · cases h1
    · exact hf g h1
  · rw [runHandler_ready env req hc]
    obtain ⟨ps, hps⟩ := mainFlow_genCall env req uc (isEmpty_false_of_ne_nil hne)
    refine ⟨ps, ?_⟩
    show Event.generateCall ps ∈
      (runCleanup (tryBody env req).temps (tryBody env req).storage (tryBody env req).events).2
    rw [tryBody_of_valid env req uc hu hne]
    exact cleanup_events_mono _ _ _ _ hps

def envUploadFailW : Env :=
  ⟨true, fun _ => StageOutcome.uploadFail, fun _ => ("tmp1".toList), Except.ok ("x".toList)⟩

def reqOneImageW : GenRequest :=
  ⟨none, none, none, some ("topic".toList), [⟨"a.png".toList, "image/png".toList⟩]⟩

/-- Witness for C6: one valid image whose upload raises; it appears in no
uploaded-list entry and the generate call still happens. -/
theorem c6_failed_attachment_dropped_witness :
    (∀ g, (attemptsBefore reqOneImageW.images 0, g) ∉ (stageAll envUploadFailW reqOneImageW.images).uploads)
    ∧ ∃ ps, Event.generateCall ps ∈ (runHandler envUploadFailW reqOneImageW).events :=
  c6_failed_attachment_dropped envUploadFailW reqOneImageW ("topic".toList) 0
    rfl rfl (by decide) (by decide) (by decide) (fun g h => StageOutcome.noConfusion h)

theorem stage_erase (env : Env) :
    ∀ (files : List FilePart) (i : Nat) (hi : i < files.length) (st : StageState),
      validImage (files.get ⟨i, hi⟩) = false →
      (files.eraseIdx i).foldl (stageOne env) st = files.foldl (stageOne env) st := by
  intro files
  induction files with
  | nil => intro i hi; simp at hi
  | cons f rest ih =>
    intro i hi st hv
    cases i with
    | zero =>
      have hvf : validImage f = false := hv
      have hskip : stageOne env st f = st := by simp [stageOne, hvf]
      simp [List.eraseIdx, List.foldl, hskip]
    | succ i' =>
      have hi' : i' < rest.length := by simpa using hi
      have hv' : validImage (rest.get ⟨i', hi'⟩) = false := by simpa using hv
      simp only [List.eraseIdx, List.foldl]
      exact ih i' hi' (stageOne env st f) hv'

/-- The same request with its i-th attachment removed. -/
def dropImage (req : GenRequest) (i : Nat) : GenRequest :=
  ⟨req.postType, req.inputLanguage, req.outputLanguage, req.userContext, req.images.eraseIdx i⟩

theorem mainFlow_images_congr (env : Env) (req req' : GenRequest) (uc : Str)
    (hpt : req'.postType = req.postType) (hil : req'.inputLanguage = req.inputLanguage)
    (hol : req'.outputLanguage = req.outputLanguage)
    (hst : stageAll env req'.images = stageAll env req.images) :
    mainFlow env req' uc = mainFlow env req uc := by
  simp only [mainFlow, hpt, hil, hol, hst]

theorem tryBody_images_congr (env : Env) (req req' : GenRequest)
    (huc : req'.userContext = req.userContext)
    (hpt : req'.postType = req.postType) (hil : req'.inputLanguage = req.inputLanguage)
    (hol : req'.outputLanguage = req.outputLanguage)
    (hst : stageAll env req'.images = stageAll env req.images) :
    tryBody env req' = tryBody env req := by
  cases hu : req.userContext with
  | none =>
    rw [tryBody_of_blank env req (fun uc' h => by rw [hu] at h; cases h),
      tryBody_of_blank env req' (fun uc' h => by rw [huc, hu] at h; cases h)]
  | some uc =>
    by_cases hne : pyStrip uc = []
    · rw [tryBody_of_blank env req (fun uc' h => by rw [hu] at h; cases h; exact hne),
        tryBody_of_blank env req' (fun uc' h => by rw [huc, hu] at h; cases h; exact hne)]
    · rw [tryBody_of_valid env req uc hu hne,
        tryBody_of_valid env req' uc (by rw [huc, hu]) hne]
      exact mainFlow_images_congr env req req' uc hpt hil hol hst

/-- C7: for every environment and every request, an attachment whose
declared media type does not begin with "image/" or whose filename (or
MIME type) is empty is silently skipped: the handler's full observable
outcome — response, event trace (so no temporary file creation, no upload),
recorded temporary paths and final storage — is identical to that of the
same request with this attachment removed; in particular its presence never
causes the request to fail. -/
theorem c7_invalid_attachment_skipped (env : Env) (req : GenRequest) (i : Nat)
    (hi : i < req.images.length)
    (hv : validImage (req.images.get ⟨i, hi⟩) = false) :
    runHandler env req = runHandler env (dropImage req i) := by
  have hst : stageAll env (dropImage req i).images = stageAll env req.images :=
    stage_erase env req.images i hi ⟨0, [], [], [], []⟩ hv
  have htry : tryBody env (dropImage req i) = tryBody env req :=
    tryBody_images_congr env req (dropImage req i) rfl rfl rfl rfl hst
  unfold runHandler
  rw [htry]

def reqPdfW : GenRequest :=
  ⟨none, none, none, some ("topic".toList), [⟨"doc.pdf".toList, "application/pdf".toList⟩]⟩

/-- Witness for C7: a request with a single "application/pdf" attachment
behaves exactly like the same request with no attachments. -/
theorem c7_invalid_attachment_skipped_witness :
    runHandler envFallbackW reqPdfW = runHandler envFallbackW (dropImage reqPdfW 0) :=
  c7_invalid_attachment_skipped envFallbackW reqPdfW 0 (by decide) (by decide)

/-- Modelled from the spec's words, for comparison with the code's
extraction (this is what C1 literally asserts): the text from the end of
the first occurrence of the given marker up to the NEXT marker — the
earliest following occurrence of any of the three section markers — or the
end of the text when none follows, trimmed of surrounding whitespace. -/
def specSectionText (marker s : Str) : Str :=
  match findSub marker s with
  | none => []
  | some i =>
    let t := s.drop (i + marker.length)
    let stops := [findSub fbMarker t, findSub xMarker t, findSub igMarker t].filterMap id
    pyStrip (t.take (stops.foldl min t.length))

/-- Concrete model response containing all three section markers, but out
of the canonical order: Facebook, Instagram, X. -/
def cex1 : Str :=
  fbMarker ++ ("A".toList) ++ igMarker ++ ("B".toList) ++ xMarker ++ ("C".toList)

/-- Counterexample for C1 as stated: cex1 contains all three markers, the
text between the Facebook marker and the next marker (the Instagram one)
is "A", yet the code's extraction returns "A### Instagram Post ###B" for
the facebook field, because the Facebook regex only stops at the X marker
(or the end of text), not at whichever marker comes next. -/
theorem c1_counterexample :
    containsSub fbMarker cex1 = true ∧ containsSub xMarker cex1 = true
    ∧ containsSub igMarker cex1 = true
    ∧ specSectionText fbMarker cex1 = ("A".toList)
    ∧ facebookContent cex1 = ("A".toList ++ igMarker ++ ("B".toList))
    ∧ facebookContent cex1 ≠ specSectionText fbMarker cex1 := by
  decide

/-- A model response decomposed around the three markers in canonical
order: prefix, Facebook marker, section a, X marker, section b, Instagram
marker, section c. -/
def sectioned (p a b c : Str) : Str :=
  p ++ fbMarker ++ a ++ xMarker ++ b ++ igMarker ++ c

theorem sectioned_drop_fb (p a b c : Str) :
    (sectioned p a b c).drop (p.length + fbMarker.length) =
      a ++ xMarker ++ b ++ igMarker ++ c := by
  have h : sectioned p a b c =
      (p ++ fbMarker) ++ (a ++ xMarker ++ b ++ igMarker ++ c) := by
    simp [sectioned, List.append_assoc]
  rw [h, ← List.length_append, List.drop_left]

theorem sectioned_drop_x (p a b c : Str) :
    (sectioned p a b c).drop (p.length + fbMarker.length + a.length + xMarker.length) =
      b ++ igMarker ++ c := by
  have h : sectioned p a b c =
      (p ++ fbMarker ++ a ++ xMarker) ++ (b ++ igMarker ++ c) := by
    simp [sectioned, List.append_assoc]
  rw [h]
  apply List.drop_left'
  simp [List.length_append]
  omega

theorem sectioned_drop_ig (p a b c : Str) :
    (sectioned p a b c).drop
        (p.length + fbMarker.length + a.length + xMarker.length + b.length + igMarker.length) =
      c := by
  have h : sectioned p a b c =
      (p ++ fbMarker ++ a ++ xMarker ++ b ++ igMarker) ++ c := by
    simp [sectioned, List.append_assoc]
  rw [h]
  apply List.drop_left'
  simp [List.length_append]
  omega

/-- C1 (amended): for every model response that decomposes as
p ++ FB ++ a ++ X ++ b ++ IG ++ c where the displayed occurrence of each
marker is its first occurrence in the text — in particular for every
response in which each of the three markers occurs exactly once and in the
canonical order, with arbitrary surrounding whitespace and blank lines in
p, a, b, c — the extraction returns exactly the text between each marker
and the next marker (or the end of the text), trimmed of surrounding
whitespace: trim a, trim b and trim c.  (As c1_counterexample shows, the
claim fails when the markers appear out of the canonical order, because
each regex stops only at its own designated stop marker.) -/
theorem c1_sections_extracted (p a b c : Str)
    (hfb : findSub fbMarker (sectioned p a b c) = some p.length)
    (hx : findSub xMarker (sectioned p a b c) =
      some (p.length + fbMarker.length + a.length))
    (hig : findSub igMarker (sectioned p a b c) =
      some (p.length + fbMarker.length + a.length + xMarker.length + b.length)) :
    facebookContent (sectioned p a b c) = pyStrip a
    ∧ xContent (sectioned p a b c) = pyStrip b
    ∧ instagramContent (sectioned p a b c) = pyStrip c := by
  have hx' : findSub xMarker ((sectioned p a b c).drop (p.length + fbMarker.length)) =
      some a.length := by
    have h := findSub_drop_shift xMarker (sectioned p a b c)
      (p.length + fbMarker.length + a.length) (p.length + fbMarker.length) hx (by omega)
    have harith : p.length + fbMarker.length + a.length - (p.length + fbMarker.length) = a.length := by
      omega
    rw [harith] at h
    exact h
  have hig' : findSub igMarker
      ((sectioned p a b c).drop (p.length + fbMarker.length + a.length + xMarker.length)) =
      some b.length := by
    have h := findSub_drop_shift igMarker (sectioned p a b c)
      (p.length + fbMarker.length + a.length + xMarker.length + b.length)
      (p.length + fbMarker.length + a.length + xMarker.length) hig (by omega)
    have harith : p.length + fbMarker.length + a.length + xMarker.length + b.length
        - (p.length + fbMarker.length + a.length + xMarker.length) = b.length := by
      omega
    rw [harith] at h
    exact h
  refine ⟨?_, ?_, ?_⟩
  · simp only [facebookContent, sectionFrom, hfb, hx']
    rw [sectioned_drop_fb]
    simp only [List.append_assoc]
    exact congrArg pyStrip (List.take_left a _)
  · simp only [xContent, sectionFrom, hx, hig']
    rw [sectioned_drop_x]
    simp only [List.append_assoc]
    exact congrArg pyStrip (List.take_left b _)
  · simp only [instagramContent, hig]
    exact congrArg pyStrip (sectioned_drop_ig p a b c)

/-- Witness for C1 (amended): a concrete well-formed response with blank
lines around the markers is split into the three trimmed sections. -/
theorem c1_sections_extracted_witness :
    facebookContent (sectioned ("Intro\n".toList) ("\nAAA BBB\n\n".toList)
        ("\n xx \n".toList) ("\nyy\n".toList)) = pyStrip ("\nAAA BBB\n\n".toList)
    ∧ xContent (sectioned ("Intro\n".toList) ("\nAAA BBB\n\n".toList)
        ("\n xx \n".toList) ("\nyy\n".toList)) = pyStrip ("\n xx \n".toList)
    ∧ instagramContent (sectioned ("Intro\n".toList) ("\nAAA BBB\n\n".toList)
        ("\n xx \n".toList) ("\nyy\n".toList)) = pyStrip ("\nyy\n".toList) :=
  c1_sections_extracted ("Intro\n".toList) ("\nAAA BBB\n\n".toList)
    ("\n xx \n".toList) ("\nyy\n".toList) (by decide) (by decide) (by decide)

/-- hasSuffixStr pat s: the list s ends with pat. -/
def hasSuffixStr (pat s : Str) : Bool := s.drop (s.length - pat.length) == pat

/-- The prompt composed for a concrete request: postType "Promo", input
language "English", output language "French", user context "launch", no
uploaded images. -/
def c9Prompt : Str :=
  textPartContent ("Promo".toList) ("English".toList) ("French".toList) ("launch".toList) 0

set_option maxRecDepth 8000 in
/-- C9 (evaluation of the code at a failing input): the composed prompt
does embed postType, inputLanguage, outputLanguage and the trimmed
userContext, and contains all three section markers exactly — but because
the final template of app.py lines 128-143 is a plain (non-f) string, the
prompt ends with the closing instruction carrying the literal placeholder
text "strictly in \x7boutput_language\x7d." rather than the request's
outputLanguage value: for outputLanguage "French", "strictly in French"
occurs nowhere in the prompt. -/
theorem c9_literal_placeholder :
    hasSuffixStr ("strictly in \x7boutput_language\x7d.\n".toList) c9Prompt = true
    ∧ containsSub ("strictly in French".toList) c9Prompt = false
    ∧ containsSub ("- Post Type: Promo".toList) c9Prompt = true
    ∧ containsSub ("- Input Context Language: English".toList) c9Prompt = true
    ∧ containsSub ("- Output Language: French".toList) c9Prompt = true
    ∧ containsSub ("- User Context/Details: \"launch\"".toList) c9Prompt = true
    ∧ containsSub fbMarker c9Prompt = true
    ∧ containsSub xMarker c9Prompt = true
    ∧ containsSub igMarker c9Prompt = true := by
  decide
